import Mathlib

/-!
Verification development for the aws-toolkit-vscode snapshot.

Part 1 embeds the featureDev chat `Session` class
(src/caws/cawsStatusbar.ts, class `Session`) together with the
session-state objects it manipulates.  Part 2 embeds the CAWS command
dispatch layer (src/caws/commands.ts: `login`, `createClientInjector`).
Part 3 embeds the CloudWatch Logs URI helpers exercised by
src/test/cloudWatchLogs/utils.test.ts and the virtual-document provider
src/cloudWatchLogs/document/logStreamDocumentProvider.ts.

Effectful TypeScript is modelled by explicit state passing: a method that
mutates `this` becomes a function `Session → ... → Session`, a method that
may throw returns the thrown error alongside the (unchanged) receiver, and
observable side effects (cancelling a token source, showing a notification,
logging) are recorded in the returned outcome record.
-/

namespace AwsToolkit

/-! ## Part 1: the featureDev chat Session -/

/-- Phase of a session state (`state.phase` in the TypeScript).  The spec
describes a linear machine ConversationNotStarted → PrepareRefinement →
PrepareCodeGen; `retries` and `decreaseRetries` switch on the phases
`Approach` and `Codegen`, with a default branch for any other phase. -/
inductive DevPhase
  | Init
  | Approach
  | Codegen
  deriving DecidableEq, Repr

/-- Which session-state class the current `_state` object belongs to. -/
inductive StateKind
  | conversationNotStarted
  | prepareRefinement
  | prepareCodeGen
  deriving DecidableEq, Repr

/-- Position of a state class in the linear order of the spec:
ConversationNotStarted → PrepareRefinement → PrepareCodeGen. -/
def StateKind.position : StateKind → Nat
  | .conversationNotStarted => 0
  | .prepareRefinement => 1
  | .prepareCodeGen => 2

/-- A cancellation token source, identified by a number so that distinct
states can hold distinct tokens.  Cancellation is observable: operations
report which token source they cancelled. -/
structure CancellationTokenSource where
  id : Nat
  deriving DecidableEq, Repr

/-- The session-state configuration built by `Session.getSessionStateConfig`
(the `proxyClient` field, an opaque network client, is omitted: no claim
mentions it). -/
structure SessionStateConfig where
  sourceRoot : String
  workspaceRoot : String
  conversationId : String
  deriving DecidableEq, Repr

/-- Modelled from the spec: the `sessionState` module defining
`ConversationNotStartedState`, `PrepareRefinementState` and
`PrepareCodeGenState` is not under src/; only its constructor calls and the
fields read by `Session` (phase, approach, tokenSource, uploadId, filePaths,
deletedFiles, references) appear there.  A state is a record of those
fields; `uploadId := none` models a state class without an `uploadId`
field (an Omit of SessionState without uploadId in the TypeScript). -/
structure SessionState where
  kind : StateKind
  phase : DevPhase
  approach : String
  tabID : String
  tokenSource : CancellationTokenSource
  conversationId : Option String
  uploadId : Option String
  filePaths : Option (List String)
  deletedFiles : Option (List String)
  references : Option (List String)
  currentIteration : Option Nat
  deriving DecidableEq, Repr

/-- Modelled from the spec: `new ConversationNotStartedState(approach, tabID)`;
the initial state of the linear sequence, before any conversation exists. -/
def ConversationNotStartedState (approach tabID : String) : SessionState :=
  { kind := .conversationNotStarted
    phase := .Init
    approach := approach
    tabID := tabID
    tokenSource := ⟨0⟩
    conversationId := none
    uploadId := none
    filePaths := none
    deletedFiles := none
    references := none
    currentIteration := none }

/-- Modelled from the spec: `new PrepareRefinementState(config, approach, tabID)`;
the approach-refinement state, still without an `uploadId` field. -/
def PrepareRefinementState (config : SessionStateConfig) (approach tabID : String) :
    SessionState :=
  { kind := .prepareRefinement
    phase := .Approach
    approach := approach
    tabID := tabID
    tokenSource := ⟨0⟩
    conversationId := some config.conversationId
    uploadId := none
    filePaths := none
    deletedFiles := none
    references := none
    currentIteration := none }

/-- Modelled from the spec:
`new PrepareCodeGenState(configWithUploadId, approach, filePaths, deletedFiles, references, tabID, currentIteration)`;
the code-generation state.  The TypeScript passes `uploadId` inside the
config object; it is a separate argument here. -/
def PrepareCodeGenState (config : SessionStateConfig) (uploadId approach : String)
    (filePaths deletedFiles references : List String) (tabID : String)
    (currentIteration : Nat) : SessionState :=
  { kind := .prepareCodeGen
    phase := .Codegen
    approach := approach
    tabID := tabID
    tokenSource := ⟨0⟩
    conversationId := some config.conversationId
    uploadId := some uploadId
    filePaths := some filePaths
    deletedFiles := some deletedFiles
    references := some references
    currentIteration := some currentIteration }

/-- The payload shown to the user after an interaction (content is opaque
for our purposes). -/
structure Interaction where
  content : Option String
  deriving DecidableEq, Repr

/-- Result of `state.interact(...)`: an optional successor state plus the
interaction to surface. -/
structure InteractResp where
  nextState : Option SessionState
  interaction : Interaction
  deriving DecidableEq, Repr

/-- Environment of one interact round trip: the backend answer.  `failed`
models an interaction that yields no successor state. -/
structure InteractEnv where
  failed : Bool
  newApproach : String
  uploadId : String
  deriving DecidableEq, Repr

/-- Modelled from the spec: the per-state `interact` implementations are not
under src/.  The spec describes a linear sequence of states driving network
calls, so an interaction never leaves the current position in the order:
the not-started state yields no successor (the preloader must run first),
and the two prepared states yield an updated state of the same class (a new
approach text and, for refinement, the prepared upload), or no successor
when the call fails. -/
def SessionState.interact (st : SessionState) (env : InteractEnv) : InteractResp :=
  match st.kind with
  | .conversationNotStarted => { nextState := none, interaction := ⟨none⟩ }
  | .prepareRefinement =>
      if env.failed then { nextState := none, interaction := ⟨none⟩ }
      else
        { nextState := some { st with
              approach := env.newApproach
              uploadId := some env.uploadId
              tokenSource := ⟨st.tokenSource.id + 1⟩ }
          interaction := ⟨some env.newApproach⟩ }
  | .prepareCodeGen =>
      if env.failed then { nextState := none, interaction := ⟨none⟩ }
      else
        { nextState := some { st with tokenSource := ⟨st.tokenSource.id + 1⟩ }
          interaction := ⟨none⟩ }

/-- Errors thrown by `Session` getters. -/
inductive FeatureDevError
  | conversationIdNotFound
  | uploadIdNotInitialized
  deriving DecidableEq, Repr

/-- Modelled from the spec: the `limits` module is not under src/; the chat
flow has a small fixed retry budget.  The concrete number is immaterial to
every claim. -/
def approachRetryLimit : Int := 3

/-- Modelled from the spec: see `approachRetryLimit`. -/
def codeGenRetryLimit : Int := 3

/-- The per-tab session configuration (`SessionConfig`); only the fields the
claims touch are kept. -/
structure SessionConfig where
  sourceRoot : String
  workspaceRoot : String
  deriving DecidableEq, Repr

/-- The `Session` class fields.  `state` is the TypeScript `_state` (the
constructor always assigns it, so the null check of the `state` getter never
fires and the field is total here); `conversationIdOpt` is `_conversationId`
and `latestMessage` is `_latestMessage`. -/
structure Session where
  config : SessionConfig
  tabID : String
  state : SessionState
  task : String
  approach : String
  conversationIdOpt : Option String
  approachRetries : Int
  codeGenRetries : Int
  preloaderFinished : Bool
  latestMessage : String
  isAuthenticating : Bool
  deriving DecidableEq, Repr

/-- The `Session` constructor: state a fresh `ConversationNotStartedState` with empty approach,
retry counters at their limits, all other fields empty. -/
def Session.create (config : SessionConfig) (tabID : String) : Session :=
  { config := config
    tabID := tabID
    state := ConversationNotStartedState "" tabID
    task := ""
    approach := ""
    conversationIdOpt := none
    approachRetries := approachRetryLimit
    codeGenRetries := codeGenRetryLimit
    preloaderFinished := false
    latestMessage := ""
    isAuthenticating := false }

/-- The `conversationId` getter: `if (!this._conversationId) throw new
ConversationIdNotFoundError()`.  An unset id and the empty string are both
falsy in JavaScript, so both throw. -/
def Session.conversationId (s : Session) : Except FeatureDevError String :=
  match s.conversationIdOpt with
  | none => .error .conversationIdNotFound
  | some cid => if cid = "" then .error .conversationIdNotFound else .ok cid

/-- The `uploadId` getter: throws unless the current state has an `uploadId`
field. -/
def Session.uploadId (s : Session) : Except FeatureDevError String :=
  match s.state.uploadId with
  | none => .error .uploadIdNotInitialized
  | some u => .ok u

/-- The `retries` getter: switch on the current phase, with
`approachRetries` as the default branch. -/
def Session.retries (s : Session) : Int :=
  match s.state.phase with
  | .Approach => s.approachRetries
  | .Codegen => s.codeGenRetries
  | _ => s.approachRetries

/-- Method `decreaseRetries`: subtract one from the counter of the current phase;
a phase that is neither `Approach` nor `Codegen` falls through the switch and
changes nothing. -/
def Session.decreaseRetries (s : Session) : Session :=
  match s.state.phase with
  | .Approach => { s with approachRetries := s.approachRetries - 1 }
  | .Codegen => { s with codeGenRetries := s.codeGenRetries - 1 }
  | _ => s

/-- Method `getSessionStateConfig`: reads the `conversationId` getter, so it can
throw. -/
def Session.getSessionStateConfig (s : Session) :
    Except FeatureDevError SessionStateConfig := do
  let cid ← s.conversationId
  pure { sourceRoot := s.config.sourceRoot
         workspaceRoot := s.config.workspaceRoot
         conversationId := cid }

/-- Method `setupConversation`: stores the message, obtains a conversation id
from the backend (`convId`, the value returned by
`proxyClient.createConversation()`), then replaces the state with a fresh
`PrepareRefinementState`.  Reading the `conversationId` getter while
building the new state throws when the obtained id is falsy, in which case
the already-performed field assignments persist but the state is left
unchanged. -/
def Session.setupConversation (s : Session) (msg convId : String) :
    Session × Option FeatureDevError :=
  let s1 := { s with latestMessage := msg, conversationIdOpt := some convId }
  match s1.getSessionStateConfig with
  | .error e => (s1, some e)
  | .ok cfg => ({ s1 with state := PrepareRefinementState cfg "" s1.tabID }, none)

/-- Method `preloader`: runs `setupConversation` once, guarded by
`preloaderFinished`; the flag is set only after the setup returns without
throwing. -/
def Session.preloader (s : Session) (msg convId : String) :
    Session × Option FeatureDevError :=
  if s.preloaderFinished then (s, none)
  else
    match s.setupConversation msg convId with
    | (s1, some e) => (s1, some e)
    | (s1, none) => ({ s1 with preloaderFinished := true }, none)

/-- Method `initCodegen`: builds a `PrepareCodeGenState` from the current
conversation id and upload id (either getter can throw, leaving the session
unchanged), installs it, and clears the latest message. -/
def Session.initCodegen (s : Session) : Session × Option FeatureDevError :=
  match s.getSessionStateConfig with
  | .error e => (s, some e)
  | .ok cfg =>
    match s.uploadId with
    | .error e => (s, some e)
    | .ok up =>
      ({ s with
          state := PrepareCodeGenState cfg up s.approach [] [] [] s.tabID 0
          latestMessage := "" }, none)

/-- Outcome of `nextInteraction`: the updated session, the token source that
was cancelled (if any), and the interaction returned to the caller. -/
structure NextOutcome where
  session : Session
  cancelled : Option CancellationTokenSource
  interaction : Interaction
  deriving DecidableEq, Repr

/-- The tail of `nextInteraction` after `state.interact` has produced `resp`:
when `resp.nextState` is present, read the (possibly updated) approach from
the current state, cancel the current state token source, install the next
state, and write the approach into the new state and the session; otherwise
leave the session untouched. -/
def Session.nextInteractionWith (s : Session) (resp : InteractResp) : NextOutcome :=
  match resp.nextState with
  | some ns =>
    let newApproach := s.state.approach
    { session := { s with
          state := { ns with approach := newApproach }
          approach := newApproach }
      cancelled := some s.state.tokenSource
      interaction := resp.interaction }
  | none => { session := s, cancelled := none, interaction := resp.interaction }

/-- Method `nextInteraction`: call `interact` on the current state and apply
its response. -/
def Session.nextInteraction (s : Session) (env : InteractEnv) : NextOutcome :=
  s.nextInteractionWith (s.state.interact env)

/-- Method `send`: records the task on the first truthy message, always records
the latest message, then runs `nextInteraction`. -/
def Session.send (s : Session) (msg : String) (env : InteractEnv) : NextOutcome :=
  let s1 := if s.task = "" ∧ msg ≠ "" then { s with task := msg } else s
  let s2 := { s1 with latestMessage := msg }
  s2.nextInteraction env

/-- The public operations of `Session` that change it, with the inputs the
environment supplies to each. -/
inductive SessionOp
  | preloader (msg convId : String)
  | initCodegen
  | send (msg : String) (env : InteractEnv)
  | decreaseRetries
  deriving DecidableEq, Repr

/-- Apply one operation, keeping only the resulting session. -/
def Session.applyOp (s : Session) : SessionOp → Session
  | .preloader msg convId => (s.preloader msg convId).1
  | .initCodegen => s.initCodegen.1
  | .send msg env => (s.send msg env).session
  | .decreaseRetries => s.decreaseRetries

/-- Run a list of operations from left to right. -/
def Session.runOps (s : Session) (ops : List SessionOp) : Session :=
  ops.foldl Session.applyOp s

/-- A session is reachable when some operation sequence produces it from a
freshly constructed session. -/
def Session.Reachable (s : Session) : Prop :=
  ∃ config tabID ops, s = (Session.create config tabID).runOps ops

/-! ## Part 2: the CAWS command layer (src/caws/commands.ts) -/

/-- The TypeScript union LoginResult with members Succeeded, Cancelled and Failed. -/
inductive LoginResult
  | Succeeded
  | Cancelled
  | Failed
  deriving DecidableEq, Repr

/-- An authentication session; only the id is compared by the code. -/
structure AuthSession where
  id : String
  deriving DecidableEq, Repr

/-- What `LoginWizard.run()` returns when the user completes the wizard. -/
structure LoginWizardResponse where
  session : AuthSession
  deriving DecidableEq, Repr

/-- Observable effects of `login`: whether credentials were stored, which
previous session (if any) was deleted, and whether an error was logged. -/
structure LoginEffects where
  credentialsSet : Bool
  deletedSession : Option AuthSession
  errorLogged : Bool
  deriving DecidableEq, Repr

/-- Function `login`: run the wizard; return `Cancelled` on no
response; otherwise set the credentials — when that throws, log the error
and return `Failed`; on success delete the previous active session when its
id differs from the new one, and return `Succeeded`.  `lastSession` is the
active session read before the wizard runs, `response` the wizard outcome,
and `setCredentialsThrows` whether `client.setCredentials` throws. -/
def login (lastSession : Option AuthSession) (response : Option LoginWizardResponse)
    (setCredentialsThrows : Bool) : LoginResult × LoginEffects :=
  match response with
  | none =>
      (.Cancelled, { credentialsSet := false, deletedSession := none, errorLogged := false })
  | some resp =>
      if setCredentialsThrows then
        (.Failed, { credentialsSet := false, deletedSession := none, errorLogged := true })
      else
        match lastSession with
        | some last =>
            if resp.session.id ≠ last.id then
              (.Succeeded,
                { credentialsSet := true, deletedSession := some last, errorLogged := false })
            else
              (.Succeeded,
                { credentialsSet := true, deletedSession := none, errorLogged := false })
        | none =>
            (.Succeeded,
              { credentialsSet := true, deletedSession := none, errorLogged := false })

/-- The CAWS client as the injector sees it: only connectivity matters. -/
structure CawsClient where
  connected : Bool
  deriving DecidableEq, Repr

/-- Environment of one dispatch through the client injector: the client the
factory produced, and — should the login flow run — its result together
with the client connectivity after it (login mutates the client through
`setCredentials`). -/
structure InjectorEnv where
  client : CawsClient
  loginResult : LoginResult
  clientAfterLogin : CawsClient
  deriving DecidableEq, Repr

/-- Outcome of one dispatch: the value returned to the caller (`none` models
`undefined`), the client the command was invoked with (`none` when the
command never ran), whether the login flow ran, and the error notification
shown, if any. -/
structure InjectorOutcome (U : Type) where
  result : Option U
  calledWith : Option CawsClient
  loginRan : Bool
  errorMessage : Option String
  deriving DecidableEq, Repr

/-- The notification text shown by the injector when login fails. -/
def notConnectedMessage : String := "AWS: Not connected to CODE.AWS"

/-- The dispatcher built by `createClientInjector`, applied to a command: when the factory
client is connected, invoke the command with it; otherwise run the login
flow, invoke the command only when login succeeded and the client is then
connected, show the error notification exactly when login failed, and
return `undefined` otherwise. -/
def withClient {T U : Type} (env : InjectorEnv) (command : CawsClient → T → U)
    (args : T) : InjectorOutcome U :=
  if env.client.connected then
    { result := some (command env.client args)
      calledWith := some env.client
      loginRan := false
      errorMessage := none }
  else if env.loginResult = .Succeeded ∧ env.clientAfterLogin.connected then
    { result := some (command env.clientAfterLogin args)
      calledWith := some env.clientAfterLogin
      loginRan := true
      errorMessage := none }
  else
    { result := none
      calledWith := none
      loginRan := true
      errorMessage := if env.loginResult = .Failed then some notConnectedMessage else none }

/-! ## Part 3: CloudWatch Logs URIs and the document provider -/

/-- Modelled from the spec: `CLOUDWATCH_LOGS_SCHEME` lives in
shared/constants.ts, which is not under src/.  Its concrete text is
immaterial; only equality with itself and with other schemes is used. -/
def CLOUDWATCH_LOGS_SCHEME : String := "aws-cwl"

/-- JavaScript `string.split(sep)` on a single character, at the
character-list level: always returns one more group than there are
separators. -/
def splitChars (c : Char) : List Char → List (List Char)
  | [] => [[]]
  | x :: xs =>
    match splitChars c xs with
    | [] => [[]]
    | grp :: rest => if x = c then [] :: grp :: rest else (x :: grp) :: rest

/-- A parsed editor URI: scheme, path and query components. -/
structure VsCodeUri where
  scheme : String
  path : String
  query : String
  deriving DecidableEq, Repr

/-- Identity of a log group: its name and region. -/
structure CloudWatchLogsGroupInfo where
  groupName : String
  regionName : String
  deriving DecidableEq, Repr

/-- Modelled from the spec: cloudWatchLogsUtils.ts is not under src/; its
behaviour is fixed by the unit tests in
src/test/cloudWatchLogs/utils.test.ts: the URI is
`SCHEME:groupName:regionName?serializedParameters`.  The parameters record
travels as its serialized query text, which the editor URI carries
verbatim. -/
def createURIFromArgs (logGroupInfo : CloudWatchLogsGroupInfo) (parameters : String) :
    VsCodeUri :=
  { scheme := CLOUDWATCH_LOGS_SCHEME
    path := logGroupInfo.groupName ++ ":" ++ logGroupInfo.regionName
    query := parameters }

/-- Modelled from the spec: the inverse of `createURIFromArgs`; throws when
the scheme is wrong or the colon-split path does not have exactly two
elements (group name and region name — three elements of the URI counting
the scheme). -/
def parseCloudWatchLogsUri (uri : VsCodeUri) :
    Except String (CloudWatchLogsGroupInfo × String) :=
  match splitChars ':' uri.path.data with
  | [g, r] =>
      if uri.scheme = CLOUDWATCH_LOGS_SCHEME then
        .ok ({ groupName := String.mk g, regionName := String.mk r }, uri.query)
      else .error "URI is not parseable for CloudWatch Logs"
  | _ => .error "URI is not parseable for CloudWatch Logs"

/-- The formatting options `provideTextDocumentContent` passes to the
registry. -/
structure GetLogContentOptions where
  timestamps : Bool
  deriving DecidableEq, Repr

/-- The log stream registry as the document provider sees it: a lookup from
URI (and formatting options) to rendered content, `none` on a miss.  The
registry class itself is not under src/. -/
structure LogStreamRegistry where
  getLogContent : VsCodeUri → Option GetLogContentOptions → Option String

/-- Outcome of `provideTextDocumentContent`: the returned text and whether
the miss was logged. -/
structure ProvideContentOutcome where
  content : String
  errorLogged : Bool
  deriving DecidableEq, Repr

/-- Method `provideTextDocumentContent` of the document provider: fetch the
rendered content with timestamps, log an error when the content is falsy,
and return the content or the empty string.  Total: no branch throws.  The
JavaScript falsy test on the content is true for an undefined lookup and
also for an empty rendered string, while the nullish coalescing of the
return value lets an empty string pass through unchanged. -/
def provideTextDocumentContent (registry : LogStreamRegistry) (uri : VsCodeUri) :
    ProvideContentOutcome :=
  let content := registry.getLogContent uri (some { timestamps := true })
  { content := content.getD "",
    errorLogged := match content with
      | none => true
      | some c => c == "" }

/-! ## Sample inputs used by the witnesses -/

def sampleConfig : SessionConfig := { sourceRoot := "src", workspaceRoot := "ws" }

def sampleEnv : InteractEnv := { failed := false, newApproach := "plan", uploadId := "up-1" }

/-- A session that has reached the point where `initCodegen` succeeds. -/
def sampleCodegenReady : Session :=
  { Session.create sampleConfig "tab-1" with
      conversationIdOpt := some "cid"
      state := PrepareCodeGenState ⟨"src", "ws", "cid"⟩ "up-1" "plan" [] [] [] "tab-1" 0 }

/-- A session sitting in the approach-refinement state. -/
def sampleApproachSession : Session :=
  { Session.create sampleConfig "tab-1" with
      conversationIdOpt := some "cid"
      state := PrepareRefinementState ⟨"src", "ws", "cid"⟩ "" "tab-1" }

/-! ## Characterization lemmas for the Session operations -/

theorem nextInteractionWith_session (s : Session) (resp : InteractResp) :
    (s.nextInteractionWith resp).session =
      match resp.nextState with
      | some ns =>
          { s with state := { ns with approach := s.state.approach }
                   approach := s.state.approach }
      | none => s := by
  cases h : resp.nextState <;> simp [Session.nextInteractionWith, h]

theorem nextInteractionWith_task (s : Session) (resp : InteractResp) :
    (s.nextInteractionWith resp).session.task = s.task := by
  rw [nextInteractionWith_session]
  cases h : resp.nextState <;> simp

theorem nextInteractionWith_latestMessage (s : Session) (resp : InteractResp) :
    (s.nextInteractionWith resp).session.latestMessage = s.latestMessage := by
  rw [nextInteractionWith_session]
  cases h : resp.nextState <;> simp

theorem nextInteractionWith_retries (s : Session) (resp : InteractResp) :
    (s.nextInteractionWith resp).session.approachRetries = s.approachRetries ∧
    (s.nextInteractionWith resp).session.codeGenRetries = s.codeGenRetries := by
  rw [nextInteractionWith_session]
  cases h : resp.nextState <;> simp

theorem nextInteractionWith_flags (s : Session) (resp : InteractResp) :
    (s.nextInteractionWith resp).session.preloaderFinished = s.preloaderFinished ∧
    (s.nextInteractionWith resp).session.conversationIdOpt = s.conversationIdOpt := by
  rw [nextInteractionWith_session]
  cases h : resp.nextState <;> simp

theorem interact_kind (st : SessionState) (env : InteractEnv) :
    ∀ ns, (st.interact env).nextState = some ns → ns.kind = st.kind := by
  intro ns h
  cases hk : st.kind <;>
    by_cases hf : env.failed <;>
      simp [SessionState.interact, hk, hf] at h <;>
        simp [← h]

theorem interact_notStarted (st : SessionState) (env : InteractEnv)
    (h : st.kind = .conversationNotStarted) :
    st.interact env = { nextState := none, interaction := ⟨none⟩ } := by
  simp [SessionState.interact, h]

theorem send_task (s : Session) (msg : String) (env : InteractEnv) :
    (s.send msg env).session.task = if s.task = "" ∧ msg ≠ "" then msg else s.task := by
  unfold Session.send Session.nextInteraction
  by_cases h : s.task = "" ∧ msg ≠ "" <;> simp [h, nextInteractionWith_task]

theorem send_latestMessage (s : Session) (msg : String) (env : InteractEnv) :
    (s.send msg env).session.latestMessage = msg := by
  unfold Session.send Session.nextInteraction
  by_cases h : s.task = "" ∧ msg ≠ "" <;> simp [h, nextInteractionWith_latestMessage]

theorem send_retries (s : Session) (msg : String) (env : InteractEnv) :
    (s.send msg env).session.approachRetries = s.approachRetries ∧
    (s.send msg env).session.codeGenRetries = s.codeGenRetries := by
  unfold Session.send Session.nextInteraction
  by_cases h : s.task = "" ∧ msg ≠ "" <;>
    simp [h, nextInteractionWith_retries]

theorem send_flags (s : Session) (msg : String) (env : InteractEnv) :
    (s.send msg env).session.preloaderFinished = s.preloaderFinished ∧
    (s.send msg env).session.conversationIdOpt = s.conversationIdOpt := by
  unfold Session.send Session.nextInteraction
  by_cases h : s.task = "" ∧ msg ≠ "" <;>
    simp [h, nextInteractionWith_flags]

theorem nextInteraction_kind (s : Session) (env : InteractEnv) :
    (s.nextInteraction env).session.state.kind = s.state.kind := by
  unfold Session.nextInteraction
  rw [nextInteractionWith_session]
  cases hns : (s.state.interact env).nextState with
  | none => rfl
  | some ns => simp [interact_kind _ env ns hns]

theorem send_eq (s : Session) (msg : String) (env : InteractEnv) :
    s.send msg env =
      ({ (if s.task = "" ∧ msg ≠ "" then { s with task := msg } else s) with
          latestMessage := msg }).nextInteraction env := rfl

theorem send_state_kind (s : Session) (msg : String) (env : InteractEnv) :
    (s.send msg env).session.state.kind = s.state.kind := by
  rw [send_eq]
  by_cases h : s.task = "" ∧ msg ≠ ""
  · rw [if_pos h, nextInteraction_kind]
  · rw [if_neg h, nextInteraction_kind]

theorem send_state_of_notStarted (s : Session) (msg : String) (env : InteractEnv)
    (h : s.state.kind = .conversationNotStarted) :
    (s.send msg env).session.state = s.state := by
  unfold Session.send Session.nextInteraction
  by_cases ht : s.task = "" ∧ msg ≠ "" <;>
    simp [ht, interact_notStarted _ env h, Session.nextInteractionWith]

theorem decreaseRetries_frame (s : Session) :
    s.decreaseRetries.state = s.state ∧
    s.decreaseRetries.preloaderFinished = s.preloaderFinished ∧
    s.decreaseRetries.conversationIdOpt = s.conversationIdOpt ∧
    s.decreaseRetries.task = s.task := by
  cases h : s.state.phase <;> simp [Session.decreaseRetries, h]

theorem setupConversation_eq (s : Session) (msg convId : String) :
    s.setupConversation msg convId =
      if convId = "" then
        ({ s with latestMessage := msg, conversationIdOpt := some convId },
          some .conversationIdNotFound)
      else
        ({ s with
            latestMessage := msg,
            conversationIdOpt := some convId,
            state := PrepareRefinementState
              { sourceRoot := s.config.sourceRoot,
                workspaceRoot := s.config.workspaceRoot,
                conversationId := convId } "" s.tabID }, none) := by
  unfold Session.setupConversation Session.getSessionStateConfig Session.conversationId
  by_cases h : convId = "" <;> simp [h, Except.bind]

theorem preloader_eq (s : Session) (msg convId : String) :
    s.preloader msg convId =
      if s.preloaderFinished then (s, none)
      else if convId = "" then
        ({ s with latestMessage := msg, conversationIdOpt := some convId },
          some .conversationIdNotFound)
      else
        ({ s with
            latestMessage := msg,
            conversationIdOpt := some convId,
            state := PrepareRefinementState
              { sourceRoot := s.config.sourceRoot,
                workspaceRoot := s.config.workspaceRoot,
                conversationId := convId } "" s.tabID,
            preloaderFinished := true }, none) := by
  unfold Session.preloader
  rw [setupConversation_eq]
  by_cases h1 : s.preloaderFinished <;> by_cases h2 : convId = "" <;> simp [h1, h2]

theorem initCodegen_of_noConv (s : Session) (h : s.conversationIdOpt = none) :
    s.initCodegen = (s, some .conversationIdNotFound) := by
  simp [Session.initCodegen, Session.getSessionStateConfig, Session.conversationId, h,
    Except.bind]

theorem initCodegen_of_emptyConv (s : Session) (h : s.conversationIdOpt = some "") :
    s.initCodegen = (s, some .conversationIdNotFound) := by
  simp [Session.initCodegen, Session.getSessionStateConfig, Session.conversationId, h,
    Except.bind]

theorem initCodegen_of_noUpload (s : Session) (cid : String)
    (h : s.conversationIdOpt = some cid) (hne : cid ≠ "")
    (hu : s.state.uploadId = none) :
    s.initCodegen = (s, some .uploadIdNotInitialized) := by
  simp [Session.initCodegen, Session.getSessionStateConfig, Session.conversationId,
    Session.uploadId, h, hne, hu, Except.bind]

theorem initCodegen_of_ready (s : Session) (cid up : String)
    (h : s.conversationIdOpt = some cid) (hne : cid ≠ "")
    (hu : s.state.uploadId = some up) :
    s.initCodegen =
      ({ s with
          state := PrepareCodeGenState
            { sourceRoot := s.config.sourceRoot,
              workspaceRoot := s.config.workspaceRoot,
              conversationId := cid } up s.approach [] [] [] s.tabID 0,
          latestMessage := "" }, none) := by
  simp [Session.initCodegen, Session.getSessionStateConfig, Session.conversationId,
    Session.uploadId, h, hne, hu, Except.bind]

/-! ## Reachability invariant -/

/-- Invariant of reachable sessions: while the preloader has not finished,
no (truthy) conversation id exists and the state is still the initial one. -/
def Session.NotYetSetUp (s : Session) : Prop :=
  s.preloaderFinished = false →
    (s.conversationIdOpt = none ∨ s.conversationIdOpt = some "") ∧
      s.state.kind = .conversationNotStarted

theorem notYetSetUp_create (config : SessionConfig) (tabID : String) :
    (Session.create config tabID).NotYetSetUp := by
  intro _
  exact ⟨Or.inl rfl, rfl⟩

theorem notYetSetUp_applyOp (s : Session) (op : SessionOp) (h : s.NotYetSetUp) :
    (s.applyOp op).NotYetSetUp := by
  cases op with
  | preloader msg convId =>
    show (s.preloader msg convId).1.NotYetSetUp
    rw [preloader_eq]
    by_cases h1 : s.preloaderFinished
    · simpa [h1] using h
    · by_cases h2 : convId = ""
      · simp only [h1, h2, if_false, if_true, ite_true, ite_false]
        intro _
        exact ⟨Or.inr (by simp [h2]), (h (by simpa using h1)).2⟩
      · simp only [h1, h2, if_false, if_true, ite_true, ite_false]
        intro hfin
        simp at hfin
  | initCodegen =>
    show s.initCodegen.1.NotYetSetUp
    rcases hc : s.conversationIdOpt with _ | cid
    · rw [initCodegen_of_noConv s hc]
      exact h
    · by_cases hcid : cid = ""
      · rw [hcid] at hc
        rw [initCodegen_of_emptyConv s hc]
        exact h
      · rcases hu : s.state.uploadId with _ | up
        · rw [initCodegen_of_noUpload s cid hc hcid hu]
          exact h
        · rw [initCodegen_of_ready s cid up hc hcid hu]
          intro hfin
          simp only at hfin
          rcases (h hfin).1 with hnone | hempty
          · rw [hc] at hnone
            exact absurd hnone (by simp)
          · rw [hc] at hempty
            simp at hempty
            exact absurd hempty hcid
  | send msg env =>
    show (s.send msg env).session.NotYetSetUp
    intro hfin
    rw [(send_flags s msg env).1] at hfin
    rcases h hfin with ⟨hconv, hkind⟩
    refine ⟨by rw [(send_flags s msg env).2]; exact hconv, ?_⟩
    rw [send_state_kind]
    exact hkind
  | decreaseRetries =>
    show s.decreaseRetries.NotYetSetUp
    intro hfin
    rw [(decreaseRetries_frame s).2.1] at hfin
    rcases h hfin with ⟨hconv, hkind⟩
    refine ⟨by rw [(decreaseRetries_frame s).2.2.1]; exact hconv, ?_⟩
    rw [(decreaseRetries_frame s).1]
    exact hkind

theorem notYetSetUp_runOps (s : Session) (h : s.NotYetSetUp) (ops : List SessionOp) :
    (s.runOps ops).NotYetSetUp := by
  induction ops generalizing s with
  | nil => exact h
  | cons op rest ih => exact ih (s.applyOp op) (notYetSetUp_applyOp s op h)

theorem reachable_notYetSetUp (s : Session) (h : s.Reachable) : s.NotYetSetUp := by
  obtain ⟨config, tabID, ops, rfl⟩ := h
  exact notYetSetUp_runOps _ (notYetSetUp_create config tabID) ops

theorem position_le_two (k : StateKind) : k.position ≤ 2 := by
  cases k <;> simp [StateKind.position]

/-- C1: the chat Session walks a linear sequence of states: construction
puts it in `ConversationNotStartedState`; a completing `setupConversation`
(the conversation id obtained from the backend is truthy) installs
`PrepareRefinementState`; a completing `initCodegen` installs
`PrepareCodeGenState`; and no operation on a reachable session moves the
state backwards in the order ConversationNotStarted → PrepareRefinement →
PrepareCodeGen. -/
theorem c1_session_state_machine_linear :
    (∀ (config : SessionConfig) (tabID : String),
        (Session.create config tabID).state.kind = .conversationNotStarted) ∧
    (∀ (s : Session) (msg convId : String), convId ≠ "" →
        (s.setupConversation msg convId).1.state.kind = .prepareRefinement ∧
        (s.setupConversation msg convId).2 = none) ∧
    (∀ s : Session, s.initCodegen.2 = none →
        s.initCodegen.1.state.kind = .prepareCodeGen) ∧
    (∀ (s : Session) (op : SessionOp), s.Reachable →
        s.state.kind.position ≤ (s.applyOp op).state.kind.position) := by
  refine ⟨fun _ _ => rfl, ?_, ?_, ?_⟩
  · intro s msg convId hne
    rw [setupConversation_eq]
    simp [hne, PrepareRefinementState]
  · intro s hok
    rcases hc : s.conversationIdOpt with _ | cid
    · rw [initCodegen_of_noConv s hc] at hok ⊢
      simp at hok
    · by_cases hcid : cid = ""
      · rw [hcid] at hc
        rw [initCodegen_of_emptyConv s hc] at hok ⊢
        simp at hok
      · rcases hu : s.state.uploadId with _ | up
        · rw [initCodegen_of_noUpload s cid hc hcid hu] at hok ⊢
          simp at hok
        · rw [initCodegen_of_ready s cid up hc hcid hu]
          rfl
  · intro s op hreach
    have hinv := reachable_notYetSetUp s hreach
    cases op with
    | preloader msg convId =>
      show s.state.kind.position ≤ (s.preloader msg convId).1.state.kind.position
      rw [preloader_eq]
      by_cases h1 : s.preloaderFinished
      · simp [h1]
      · have hkind := (hinv (by simpa using h1)).2
        by_cases h2 : convId = "" <;>
          simp [h1, h2, hkind, StateKind.position, PrepareRefinementState]
    | initCodegen =>
      show s.state.kind.position ≤ s.initCodegen.1.state.kind.position
      rcases hc : s.conversationIdOpt with _ | cid
      · rw [initCodegen_of_noConv s hc]
      · by_cases hcid : cid = ""
        · rw [hcid] at hc
          rw [initCodegen_of_emptyConv s hc]
        · rcases hu : s.state.uploadId with _ | up
          · rw [initCodegen_of_noUpload s cid hc hcid hu]
          · rw [initCodegen_of_ready s cid up hc hcid hu]
            exact le_trans (position_le_two _)
              (by simp [PrepareCodeGenState, StateKind.position])
    | send msg env =>
      show s.state.kind.position ≤ (s.send msg env).session.state.kind.position
      rw [send_state_kind]
    | decreaseRetries =>
      show s.state.kind.position ≤ s.decreaseRetries.state.kind.position
      rw [(decreaseRetries_frame s).1]

theorem c1_session_state_machine_linear_witness :
    (("cid" : String) ≠ "" ∧ (Session.create sampleConfig "tab-1").Reachable ∧
      sampleCodegenReady.initCodegen.2 = none) ∧
    ((Session.create sampleConfig "tab-1").state.kind = .conversationNotStarted ∧
      ((Session.create sampleConfig "tab-1").setupConversation "hi" "cid").1.state.kind =
        .prepareRefinement ∧
      sampleCodegenReady.initCodegen.1.state.kind = .prepareCodeGen ∧
      (Session.create sampleConfig "tab-1").state.kind.position ≤
        ((Session.create sampleConfig "tab-1").applyOp .decreaseRetries).state.kind.position) := by
  refine ⟨⟨by decide, ⟨sampleConfig, "tab-1", [], rfl⟩, by decide⟩, ?_, ?_, ?_, ?_⟩
  · exact c1_session_state_machine_linear.1 sampleConfig "tab-1"
  · exact (c1_session_state_machine_linear.2.1 (Session.create sampleConfig "tab-1")
      "hi" "cid" (by decide)).1
  · exact c1_session_state_machine_linear.2.2.1 sampleCodegenReady (by decide)
  · exact c1_session_state_machine_linear.2.2.2 (Session.create sampleConfig "tab-1")
      .decreaseRetries ⟨sampleConfig, "tab-1", [], rfl⟩

/-- C2: a fresh Session starts with the fixed retry budget, no operation
ever increases a counter, only `decreaseRetries` changes one, and a change
subtracts exactly one from exactly one counter. -/
theorem c2_retry_budget_fixed :
    (∀ (config : SessionConfig) (tabID : String),
        (Session.create config tabID).approachRetries = approachRetryLimit ∧
        (Session.create config tabID).codeGenRetries = codeGenRetryLimit) ∧
    (∀ (s : Session) (op : SessionOp),
        (s.applyOp op).approachRetries ≤ s.approachRetries ∧
        (s.applyOp op).codeGenRetries ≤ s.codeGenRetries) ∧
    (∀ (s : Session) (op : SessionOp), op ≠ .decreaseRetries →
        (s.applyOp op).approachRetries = s.approachRetries ∧
        (s.applyOp op).codeGenRetries = s.codeGenRetries) ∧
    (∀ s : Session,
        (s.decreaseRetries.approachRetries = s.approachRetries - 1 ∧
          s.decreaseRetries.codeGenRetries = s.codeGenRetries) ∨
        (s.decreaseRetries.approachRetries = s.approachRetries ∧
          s.decreaseRetries.codeGenRetries = s.codeGenRetries - 1) ∨
        (s.decreaseRetries.approachRetries = s.approachRetries ∧
          s.decreaseRetries.codeGenRetries = s.codeGenRetries)) := by
  have hframe : ∀ (s : Session) (op : SessionOp), op ≠ .decreaseRetries →
      (s.applyOp op).approachRetries = s.approachRetries ∧
      (s.applyOp op).codeGenRetries = s.codeGenRetries := by
    intro s op hop
    cases op with
    | preloader msg convId =>
      show (s.preloader msg convId).1.approachRetries = _ ∧
        (s.preloader msg convId).1.codeGenRetries = _
      rw [preloader_eq]
      by_cases h1 : s.preloaderFinished <;> by_cases h2 : convId = "" <;>
        simp [h1, h2]
    | initCodegen =>
      show s.initCodegen.1.approachRetries = _ ∧ s.initCodegen.1.codeGenRetries = _
      rcases hc : s.conversationIdOpt with _ | cid
      · rw [initCodegen_of_noConv s hc]
        exact ⟨rfl, rfl⟩
      · by_cases hcid : cid = ""
        · rw [hcid] at hc
          rw [initCodegen_of_emptyConv s hc]
          exact ⟨rfl, rfl⟩
        · rcases hu : s.state.uploadId with _ | up
          · rw [initCodegen_of_noUpload s cid hc hcid hu]
            exact ⟨rfl, rfl⟩
          · rw [initCodegen_of_ready s cid up hc hcid hu]
            exact ⟨rfl, rfl⟩
    | send msg env => exact send_retries s msg env
    | decreaseRetries => exact absurd rfl hop
  have hdec : ∀ s : Session,
      (s.decreaseRetries.approachRetries = s.approachRetries - 1 ∧
        s.decreaseRetries.codeGenRetries = s.codeGenRetries) ∨
      (s.decreaseRetries.approachRetries = s.approachRetries ∧
        s.decreaseRetries.codeGenRetries = s.codeGenRetries - 1) ∨
      (s.decreaseRetries.approachRetries = s.approachRetries ∧
        s.decreaseRetries.codeGenRetries = s.codeGenRetries) := by
    intro s
    cases h : s.state.phase with
    | Approach => exact Or.inl (by simp [Session.decreaseRetries, h])
    | Codegen => exact Or.inr (Or.inl (by simp [Session.decreaseRetries, h]))
    | Init => exact Or.inr (Or.inr (by simp [Session.decreaseRetries, h]))
  refine ⟨fun _ _ => ⟨rfl, rfl⟩, ?_, hframe, hdec⟩
  intro s op
  by_cases hop : op = .decreaseRetries
  · subst hop
    rcases hdec s with ⟨h1, h2⟩ | ⟨h1, h2⟩ | ⟨h1, h2⟩ <;>
      exact ⟨by show s.decreaseRetries.approachRetries ≤ _; simp only [h1]; omega,
        by show s.decreaseRetries.codeGenRetries ≤ _; simp only [h2]; omega⟩
  · rcases hframe s op hop with ⟨h1, h2⟩
    exact ⟨le_of_eq h1, le_of_eq h2⟩

theorem c2_retry_budget_fixed_witness :
    ((SessionOp.preloader "hi" "cid" ≠ SessionOp.decreaseRetries) ∧
      (Session.create sampleConfig "tab-1").approachRetries = approachRetryLimit ∧
      (Session.create sampleConfig "tab-1").codeGenRetries = codeGenRetryLimit) ∧
    (((Session.create sampleConfig "tab-1").applyOp (.preloader "hi" "cid")).approachRetries =
        (Session.create sampleConfig "tab-1").approachRetries ∧
      ((Session.create sampleConfig "tab-1").applyOp (.preloader "hi" "cid")).codeGenRetries =
        (Session.create sampleConfig "tab-1").codeGenRetries) := by
  refine ⟨⟨by decide, c2_retry_budget_fixed.1 sampleConfig "tab-1"⟩, ?_⟩
  exact c2_retry_budget_fixed.2.2.1 (Session.create sampleConfig "tab-1")
    (.preloader "hi" "cid") (by decide)

/-- C9: before `setupConversation` has completed (on any reachable session
the preloader flag is still down), the `conversationId` getter throws
`ConversationIdNotFoundError`; and whenever the current state carries no
upload id, the `uploadId` getter throws.  Both getters are read-only: in
this embedding they are functions of the session returning no updated
session. -/
theorem c9_getters_throw_before_ready :
    (∀ s : Session, s.Reachable → s.preloaderFinished = false →
        s.conversationId = Except.error .conversationIdNotFound) ∧
    (∀ s : Session, s.state.uploadId = none →
        s.uploadId = Except.error .uploadIdNotInitialized) := by
  constructor
  · intro s hreach hfin
    rcases (reachable_notYetSetUp s hreach) hfin with ⟨hconv, _⟩
    rcases hconv with hnone | hempty
    · simp [Session.conversationId, hnone]
    · simp [Session.conversationId, hempty]
  · intro s hu
    simp [Session.uploadId, hu]

theorem c9_getters_throw_before_ready_witness :
    ((Session.create sampleConfig "tab-1").Reachable ∧
      (Session.create sampleConfig "tab-1").preloaderFinished = false ∧
      (Session.create sampleConfig "tab-1").state.uploadId = none) ∧
    ((Session.create sampleConfig "tab-1").conversationId =
        Except.error .conversationIdNotFound ∧
      (Session.create sampleConfig "tab-1").uploadId =
        Except.error .uploadIdNotInitialized) := by
  refine ⟨⟨⟨sampleConfig, "tab-1", [], rfl⟩, rfl, rfl⟩, ?_, ?_⟩
  · exact c9_getters_throw_before_ready.1 (Session.create sampleConfig "tab-1")
      ⟨sampleConfig, "tab-1", [], rfl⟩ rfl
  · exact c9_getters_throw_before_ready.2 (Session.create sampleConfig "tab-1") rfl

/-- C3: `decreaseRetries` touches only the counter of the current phase, and
`retries` reads the matching counter (`approachRetries` for any phase other
than `Codegen`). -/
theorem c3_retries_per_phase (s : Session) :
    (s.state.phase = .Approach →
        s.decreaseRetries.approachRetries = s.approachRetries - 1 ∧
        s.decreaseRetries.codeGenRetries = s.codeGenRetries ∧
        s.retries = s.approachRetries) ∧
    (s.state.phase = .Codegen →
        s.decreaseRetries.codeGenRetries = s.codeGenRetries - 1 ∧
        s.decreaseRetries.approachRetries = s.approachRetries ∧
        s.retries = s.codeGenRetries) ∧
    (s.state.phase ≠ .Approach → s.state.phase ≠ .Codegen →
        s.decreaseRetries = s ∧ s.retries = s.approachRetries) := by
  cases h : s.state.phase <;>
    simp [Session.decreaseRetries, Session.retries, h]

theorem c3_retries_per_phase_witness :
    (sampleApproachSession.state.phase = .Approach) ∧
    (sampleApproachSession.decreaseRetries.approachRetries =
        sampleApproachSession.approachRetries - 1 ∧
      sampleApproachSession.decreaseRetries.codeGenRetries =
        sampleApproachSession.codeGenRetries ∧
      sampleApproachSession.retries = sampleApproachSession.approachRetries) :=
  ⟨rfl, (c3_retries_per_phase sampleApproachSession).1 rfl⟩

/-- C4: in `nextInteraction`, a response carrying a next state cancels the
token source of the state being left (not the incoming one) and installs the
next state with the approach text propagated to it and to the session; a
response without a next state cancels nothing and leaves the session
untouched. -/
theorem c4_cancel_only_on_step_change (s : Session) (resp : InteractResp) :
    (∀ ns : SessionState, resp.nextState = some ns →
        (s.nextInteractionWith resp).cancelled = some s.state.tokenSource ∧
        (s.nextInteractionWith resp).session.state =
          { ns with approach := s.state.approach } ∧
        (s.nextInteractionWith resp).session.approach = s.state.approach) ∧
    (resp.nextState = none →
        (s.nextInteractionWith resp).cancelled = none ∧
        (s.nextInteractionWith resp).session = s) := by
  constructor
  · intro ns h
    simp [Session.nextInteractionWith, h]
  · intro h
    simp [Session.nextInteractionWith, h]

theorem c4_cancel_only_on_step_change_witness :
    (({ nextState := some (ConversationNotStartedState "a" "t")
        interaction := ⟨none⟩ } : InteractResp).nextState =
          some (ConversationNotStartedState "a" "t") ∧
      (({ nextState := none, interaction := ⟨none⟩ } : InteractResp)).nextState = none) ∧
    ((sampleApproachSession.nextInteractionWith
          { nextState := some (ConversationNotStartedState "a" "t")
            interaction := ⟨none⟩ }).cancelled =
        some sampleApproachSession.state.tokenSource ∧
      (sampleApproachSession.nextInteractionWith
          { nextState := none, interaction := ⟨none⟩ }).session = sampleApproachSession) :=
  ⟨⟨rfl, rfl⟩,
    ((c4_cancel_only_on_step_change sampleApproachSession
        { nextState := some (ConversationNotStartedState "a" "t")
          interaction := ⟨none⟩ }).1 _ rfl).1,
    ((c4_cancel_only_on_step_change sampleApproachSession
        { nextState := none, interaction := ⟨none⟩ }).2 rfl).2⟩

/-- C5: the client injector invokes a command only with a connected client:
directly when the factory client is connected, after a successful login that
leaves the client connected otherwise, and in every other case it returns
`undefined` without invoking the command, showing the not-connected error
notification exactly when the login returned `Failed`. -/
theorem c5_commands_run_only_connected {T U : Type} (env : InjectorEnv)
    (command : CawsClient → T → U) (args : T) :
    (env.client.connected = true →
        withClient env command args =
          { result := some (command env.client args)
            calledWith := some env.client
            loginRan := false
            errorMessage := none }) ∧
    (env.client.connected = false →
        (withClient env command args).loginRan = true ∧
        (env.loginResult = .Succeeded → env.clientAfterLogin.connected = true →
            withClient env command args =
              { result := some (command env.clientAfterLogin args)
                calledWith := some env.clientAfterLogin
                loginRan := true
                errorMessage := none }) ∧
        (¬(env.loginResult = .Succeeded ∧ env.clientAfterLogin.connected = true) →
            (withClient env command args).result = none ∧
            (withClient env command args).calledWith = none ∧
            ((withClient env command args).errorMessage = some notConnectedMessage ↔
              env.loginResult = .Failed))) := by
  constructor
  · intro h
    simp [withClient, h]
  · intro h
    refine ⟨?_, ?_, ?_⟩
    · by_cases hs : env.loginResult = .Succeeded ∧ env.clientAfterLogin.connected = true <;>
        simp [withClient, h, hs]
    · intro h1 h2
      simp [withClient, h, h1, h2]
    · intro hs
      have : (env.loginResult = .Succeeded ∧ (env.clientAfterLogin.connected = true)) = False := by
        simp only [eq_iff_iff, iff_false]
        exact hs
      constructor
      · simp [withClient, h, this]
      constructor
      · simp [withClient, h, this]
      · constructor
        · intro hmsg
          by_contra hf
          simp [withClient, h, this, hf] at hmsg
        · intro hf
          simp [withClient, h, this, hf]

theorem c5_commands_run_only_connected_witness :
    (({ client := ⟨false⟩, loginResult := .Failed, clientAfterLogin := ⟨false⟩ } :
          InjectorEnv).client.connected = false ∧
      ¬((.Failed : LoginResult) = .Succeeded ∧
          (⟨false⟩ : CawsClient).connected = true)) ∧
    ((withClient { client := ⟨false⟩, loginResult := .Failed, clientAfterLogin := ⟨false⟩ }
          (fun _ (n : Nat) => n + 1) 0).result = none ∧
      (withClient { client := ⟨false⟩, loginResult := .Failed, clientAfterLogin := ⟨false⟩ }
          (fun _ (n : Nat) => n + 1) 0).errorMessage = some notConnectedMessage) := by
  have h := (c5_commands_run_only_connected
      ({ client := ⟨false⟩, loginResult := .Failed, clientAfterLogin := ⟨false⟩ } : InjectorEnv)
      (fun _ (n : Nat) => n + 1) 0).2 rfl
  have h2 := h.2.2 (by simp)
  exact ⟨⟨rfl, by simp⟩, h2.1, h2.2.2.mpr rfl⟩

/-- C6: `login` returns exactly `Cancelled`, `Failed` or `Succeeded`:
`Cancelled` on no wizard response (no credential change), `Failed` when
setting credentials throws (error logged, nothing retried, nothing deleted),
and `Succeeded` otherwise, deleting the previous active session exactly when
one existed with a different id. -/
theorem c6_login_one_shot (lastSession : Option AuthSession)
    (response : Option LoginWizardResponse) (credsThrow : Bool) :
    ((login lastSession response credsThrow).1 = .Succeeded ∨
      (login lastSession response credsThrow).1 = .Cancelled ∨
      (login lastSession response credsThrow).1 = .Failed) ∧
    (response = none →
        login lastSession response credsThrow =
          (.Cancelled,
            { credentialsSet := false, deletedSession := none, errorLogged := false })) ∧
    (∀ resp, response = some resp → credsThrow = true →
        (login lastSession response credsThrow).1 = .Failed ∧
        (login lastSession response credsThrow).2.errorLogged = true ∧
        (login lastSession response credsThrow).2.deletedSession = none) ∧
    (∀ resp, response = some resp → credsThrow = false →
        (login lastSession response credsThrow).1 = .Succeeded ∧
        (login lastSession response credsThrow).2.deletedSession =
          (match lastSession with
            | some last => if resp.session.id ≠ last.id then some last else none
            | none => none)) := by
  refine ⟨?_, ?_, ?_, ?_⟩
  · cases response with
    | none => simp [login]
    | some resp =>
      cases credsThrow with
      | true => simp [login]
      | false =>
        cases lastSession with
        | none => simp [login]
        | some last =>
          by_cases hid : resp.session.id = last.id <;> simp [login, hid]
  · intro h
    simp [login, h]
  · intro resp h ht
    simp [login, h, ht]
  · intro resp h ht
    cases lastSession with
    | none => simp [login, h, ht]
    | some last =>
      by_cases hid : resp.session.id = last.id <;> simp [login, h, ht, hid]

theorem c6_login_one_shot_witness :
    ((some ⟨⟨"new"⟩⟩ : Option LoginWizardResponse) = some ⟨⟨"new"⟩⟩ ∧
      (false : Bool) = false) ∧
    ((login (some ⟨"old"⟩) (some ⟨⟨"new"⟩⟩) false).1 = .Succeeded ∧
      (login (some ⟨"old"⟩) (some ⟨⟨"new"⟩⟩) false).2.deletedSession = some ⟨"old"⟩) := by
  have h := (c6_login_one_shot (some ⟨"old"⟩) (some ⟨⟨"new"⟩⟩) false).2.2.2 ⟨⟨"new"⟩⟩ rfl rfl
  exact ⟨⟨rfl, rfl⟩, h.1, by rw [h.2]; decide⟩

/-- C10: `provideTextDocumentContent` is total on the registry lookup: it
returns the rendered content (requested with timestamps) whenever the
registry has it — without logging when that content is non-empty — and it
returns the empty string without throwing when the registry has no content,
the miss being only logged.  The falsy check of the source also logs a
present-but-empty content, which is still returned unchanged. -/
theorem c10_provide_content_total (registry : LogStreamRegistry) (uri : VsCodeUri) :
    (∀ c : String, c ≠ "" →
        registry.getLogContent uri (some { timestamps := true }) = some c →
        provideTextDocumentContent registry uri = { content := c, errorLogged := false }) ∧
    (registry.getLogContent uri (some { timestamps := true }) = none →
        provideTextDocumentContent registry uri = { content := "", errorLogged := true }) ∧
    (registry.getLogContent uri (some { timestamps := true }) = some "" →
        provideTextDocumentContent registry uri = { content := "", errorLogged := true }) := by
  refine ⟨?_, ?_, ?_⟩
  · intro c hc h
    simp [provideTextDocumentContent, h, hc]
  · intro h
    simp [provideTextDocumentContent, h]
  · intro h
    simp [provideTextDocumentContent, h]

theorem c10_provide_content_total_witness :
    ((("log-line" : String) ≠ "" ∧
      ({ getLogContent := fun _ _ => some "log-line" } : LogStreamRegistry).getLogContent
          ⟨"aws-cwl", "g:r", "q"⟩ (some { timestamps := true }) = some "log-line") ∧
      (({ getLogContent := fun _ _ => none } : LogStreamRegistry).getLogContent
          ⟨"aws-cwl", "g:r", "q"⟩ (some { timestamps := true }) = none) ∧
      (({ getLogContent := fun _ _ => some "" } : LogStreamRegistry).getLogContent
          ⟨"aws-cwl", "g:r", "q"⟩ (some { timestamps := true }) = some "")) ∧
    (provideTextDocumentContent { getLogContent := fun _ _ => some "log-line" }
        ⟨"aws-cwl", "g:r", "q"⟩ = { content := "log-line", errorLogged := false } ∧
      provideTextDocumentContent { getLogContent := fun _ _ => none }
        ⟨"aws-cwl", "g:r", "q"⟩ = { content := "", errorLogged := true } ∧
      provideTextDocumentContent { getLogContent := fun _ _ => some "" }
        ⟨"aws-cwl", "g:r", "q"⟩ = { content := "", errorLogged := true }) :=
  ⟨⟨⟨by decide, rfl⟩, rfl, rfl⟩,
    (c10_provide_content_total { getLogContent := fun _ _ => some "log-line" }
        ⟨"aws-cwl", "g:r", "q"⟩).1 "log-line" (by decide) rfl,
    (c10_provide_content_total { getLogContent := fun _ _ => none }
        ⟨"aws-cwl", "g:r", "q"⟩).2.1 rfl,
    (c10_provide_content_total { getLogContent := fun _ _ => some "" }
        ⟨"aws-cwl", "g:r", "q"⟩).2.2 rfl⟩

/-! ## C8: the task is set at most once -/

/-- The first non-empty entry of a list of messages, or the empty string. -/
def firstNonemptyMessage : List String → String
  | [] => ""
  | m :: ms => if m ≠ "" then m else firstNonemptyMessage ms

/-- Run a sequence of `send` calls, keeping only the session. -/
def Session.sendAll (s : Session) : List (String × InteractEnv) → Session
  | [] => s
  | (msg, env) :: rest => ((s.send msg env).session).sendAll rest

theorem sendAll_task_stable (s : Session) (msgs : List (String × InteractEnv))
    (h : s.task ≠ "") : (s.sendAll msgs).task = s.task := by
  induction msgs generalizing s with
  | nil => rfl
  | cons p rest ih =>
    obtain ⟨msg, env⟩ := p
    show (((s.send msg env).session).sendAll rest).task = s.task
    have hsend : (s.send msg env).session.task = s.task := by
      rw [send_task]
      simp [h]
    rw [ih _ (by rw [hsend]; exact h), hsend]

/-- C8: across any sequence of `send` calls starting from a session with no
task, the task ends up being the first non-empty message sent and is never
overwritten afterwards; a session with a task keeps it across `send`; and
every `send` records its argument as the latest message. -/
theorem c8_task_set_once :
    (∀ (s : Session) (msg : String) (env : InteractEnv),
        (s.send msg env).session.latestMessage = msg) ∧
    (∀ (s : Session) (msg : String) (env : InteractEnv), s.task ≠ "" →
        (s.send msg env).session.task = s.task) ∧
    (∀ (s : Session) (msgs : List (String × InteractEnv)), s.task = "" →
        (s.sendAll msgs).task = firstNonemptyMessage (msgs.map Prod.fst)) := by
  refine ⟨send_latestMessage, ?_, ?_⟩
  · intro s msg env h
    rw [send_task]
    simp [h]
  · intro s msgs h
    induction msgs generalizing s with
    | nil => simpa [Session.sendAll, firstNonemptyMessage] using h
    | cons p rest ih =>
      obtain ⟨msg, env⟩ := p
      show (((s.send msg env).session).sendAll rest).task = _
      by_cases hm : msg = ""
      · have hsend : (s.send msg env).session.task = s.task := by
          rw [send_task]
          simp [hm]
        rw [ih _ (by rw [hsend]; exact h)]
        simp [firstNonemptyMessage, hm]
      · have hsend : (s.send msg env).session.task = msg := by
          rw [send_task]
          simp [h, hm]
        rw [sendAll_task_stable _ rest (by rw [hsend]; exact hm), hsend]
        simp [firstNonemptyMessage, hm]

theorem c8_task_set_once_witness :
    ((Session.create sampleConfig "tab-1").task = "" ∧
      ("build" : String) ≠ "") ∧
    (((Session.create sampleConfig "tab-1").sendAll
        [("", sampleEnv), ("build", sampleEnv), ("later", sampleEnv)]).task = "build" ∧
      ((Session.create sampleConfig "tab-1").send "build" sampleEnv).session.latestMessage =
        "build") := by
  refine ⟨⟨rfl, by decide⟩, ?_, ?_⟩
  · have h := c8_task_set_once.2.2 (Session.create sampleConfig "tab-1")
      [("", sampleEnv), ("build", sampleEnv), ("later", sampleEnv)] rfl
    rw [h]
    rfl
  · exact c8_task_set_once.1 (Session.create sampleConfig "tab-1") "build" sampleEnv

/-! ## C7: CloudWatch Logs URI round-trip -/

theorem splitChars_of_not_mem (c : Char) (l : List Char) (h : c ∉ l) :
    splitChars c l = [l] := by
  induction l with
  | nil => rfl
  | cons x xs ih =>
    simp only [List.mem_cons, not_or] at h
    rw [splitChars, ih h.2]
    have hxc : ¬x = c := fun hx => h.1 hx.symm
    simp [hxc]

theorem splitChars_append_sep (c : Char) (g r : List Char) (hg : c ∉ g) (hr : c ∉ r) :
    splitChars c (g ++ c :: r) = [g, r] := by
  induction g with
  | nil =>
    rw [List.nil_append, splitChars, splitChars_of_not_mem c r hr]
    simp
  | cons x xs ih =>
    simp only [List.mem_cons, not_or] at hg
    rw [List.cons_append, splitChars, ih hg.2]
    have hxc : ¬x = c := fun hx => hg.1 hx.symm
    simp [hxc]

theorem data_append (a b : String) : (a ++ b).data = a.data ++ b.data := rfl

/-- C7 counterexample: a group name containing a colon breaks the
round-trip, since the parser splits the path on colons. -/
theorem c7_roundtrip_counterexample :
    parseCloudWatchLogsUri
        (createURIFromArgs { groupName := "a:b", regionName := "r" } "q") ≠
      Except.ok ({ groupName := "a:b", regionName := "r" }, "q") := by
  have h : parseCloudWatchLogsUri
      (createURIFromArgs { groupName := "a:b", regionName := "r" } "q") =
        Except.error "URI is not parseable for CloudWatch Logs" := by rfl
  rw [h]
  intro hcontr
  exact Except.noConfusion hcontr

/-- C7 (amended): the URI round-trip holds for every log group info whose
group name and region name contain no colon (and every parameters record);
`parseCloudWatchLogsUri` throws for a URI whose scheme is not the CloudWatch
Logs scheme or whose colon-split path does not have exactly the expected
number of elements. -/
theorem c7_uri_roundtrip :
    (∀ (info : CloudWatchLogsGroupInfo) (parameters : String),
        (':' ∈ info.groupName.data → False) →
        (':' ∈ info.regionName.data → False) →
        parseCloudWatchLogsUri (createURIFromArgs info parameters) =
          Except.ok (info, parameters)) ∧
    (∀ uri : VsCodeUri, uri.scheme ≠ CLOUDWATCH_LOGS_SCHEME →
        ∃ e, parseCloudWatchLogsUri uri = Except.error e) ∧
    (∀ uri : VsCodeUri, (splitChars ':' uri.path.data).length ≠ 2 →
        ∃ e, parseCloudWatchLogsUri uri = Except.error e) := by
  refine ⟨?_, ?_, ?_⟩
  · intro info parameters hg hr
    have hpath : (info.groupName ++ ":" ++ info.regionName).data =
        info.groupName.data ++ ':' :: info.regionName.data := by
      rw [data_append, data_append, List.append_assoc]
      rfl
    unfold parseCloudWatchLogsUri createURIFromArgs
    simp only [hpath, splitChars_append_sep ':' info.groupName.data info.regionName.data
      hg hr]
    rfl
  · intro uri hscheme
    unfold parseCloudWatchLogsUri
    rcases hsp : splitChars ':' uri.path.data with _ | ⟨g, _ | ⟨r, _ | _⟩⟩ <;>
      simp [hscheme]
  · intro uri hlen
    unfold parseCloudWatchLogsUri
    rcases hsp : splitChars ':' uri.path.data with _ | ⟨g, _ | ⟨r, _ | _⟩⟩ <;>
      first
        | exact ⟨_, rfl⟩
        | (exact absurd (by rw [hsp]; rfl) hlen)

theorem c7_uri_roundtrip_witness :
    ((':' ∈ ("group" : String).data → False) ∧
      (':' ∈ ("region" : String).data → False) ∧
      ("wrong" : String) ≠ CLOUDWATCH_LOGS_SCHEME ∧
      (splitChars ':' ("a:b:c" : String).data).length ≠ 2) ∧
    (parseCloudWatchLogsUri
        (createURIFromArgs { groupName := "group", regionName := "region" } "params") =
          Except.ok ({ groupName := "group", regionName := "region" }, "params") ∧
      (∃ e, parseCloudWatchLogsUri ⟨"wrong", "g:r", "q"⟩ = Except.error e) ∧
      (∃ e, parseCloudWatchLogsUri ⟨CLOUDWATCH_LOGS_SCHEME, "a:b:c", "q"⟩ =
        Except.error e)) := by
  refine ⟨⟨by decide, by decide, by decide, by decide⟩, ?_, ?_, ?_⟩
  · exact c7_uri_roundtrip.1 { groupName := "group", regionName := "region" } "params"
      (by decide) (by decide)
  · exact c7_uri_roundtrip.2.1 ⟨"wrong", "g:r", "q"⟩ (by decide)
  · exact c7_uri_roundtrip.2.2 ⟨CLOUDWATCH_LOGS_SCHEME, "a:b:c", "q"⟩ (by decide)
